import Mathlib

/-!
Shallow embedding of the quarterly overtime-hour allocation engine of
`src/app.py` (functions `_to_float`, `_normalize_month_inputs`, `_fmt_g`,
and the per-row loop of `build_ovt_quarter_df`), together with theorems
settling the specification claims about it.  All float arithmetic of the
source is modelled over `ℚ`; the operations involved (`min`, `max`,
addition, subtraction, comparison) are exact.
-/

/-- A spreadsheet cell as the engine receives it: a numeric value, a text
value, or a blank/missing cell. -/
inductive Cell where
  | num (q : ℚ)
  | str (s : String)
  | blank

/-- The ASCII whitespace characters that Python `str.strip()` removes by
default. -/
def isPySpace (c : Char) : Bool :=
  c == ' ' || c == '\t' || c == '\n' || c == '\r' || c == '\x0b' || c == '\x0c'

/-- Python `str.strip()`: drop leading and trailing whitespace. -/
def pyStrip (l : List Char) : List Char :=
  ((l.dropWhile isPySpace).reverse.dropWhile isPySpace).reverse

/-- `str(x).replace(",", "").strip()` applied to a text cell
(`_to_float`, src/app.py line 617). -/
def cleanCell (s : String) : List Char :=
  pyStrip (s.toList.filter (fun c => !(c == ',')))

/-- Value of a list of decimal digit characters, most significant first. -/
def digitsVal (ds : List Char) : Nat :=
  ds.foldl (fun n c => 10 * n + (c.toNat - 48)) 0

/-- An optionally signed run of decimal digits making up a whole token
(used for the exponent part of a float literal); `none` if malformed. -/
def parseSignedNat (l : List Char) : Option Int :=
  let sg : Int := match l with
    | '-' :: _ => -1
    | _ => 1
  let t := match l with
    | '+' :: u => u
    | '-' :: u => u
    | u => u
  let ds := t.takeWhile Char.isDigit
  let r := t.dropWhile Char.isDigit
  if ds.isEmpty || !r.isEmpty then none else some (sg * digitsVal ds)

/-- The optional `e`/`E` exponent suffix of a float literal; `none` if the
suffix is present but malformed, `some 0` if absent. -/
def parseExpPart (l : List Char) : Option Int :=
  match l with
  | [] => some 0
  | 'e' :: t => parseSignedNat t
  | 'E' :: t => parseSignedNat t
  | _ => none

/-- Parse a decimal float literal (optional sign, integer digits, optional
fraction, optional exponent) into a pair `(m, e)` denoting `m * 10 ^ e`;
`none` when the text is not such a literal.  Modelled from Python
`float()` on the finite decimal numerals the sheets contain. -/
def parseMantissa (l : List Char) : Option (Int × Int) :=
  let sg : Int := match l with
    | '-' :: _ => -1
    | _ => 1
  let l1 := match l with
    | '+' :: u => u
    | '-' :: u => u
    | u => u
  let ip := l1.takeWhile Char.isDigit
  let l2 := l1.dropWhile Char.isDigit
  let fp := match l2 with
    | '.' :: t => t.takeWhile Char.isDigit
    | _ => ([] : List Char)
  let l3 := match l2 with
    | '.' :: t => t.dropWhile Char.isDigit
    | t => t
  if ip.isEmpty && fp.isEmpty then none
  else
    match parseExpPart l3 with
    | none => none
    | some e => some (sg * (digitsVal ip * 10 ^ fp.length + digitsVal fp), e - fp.length)

/-- The rational number a parsed literal denotes. -/
def mantissaVal (p : Int × Int) : ℚ := (p.1 : ℚ) * (10 : ℚ) ^ p.2

/-- `float(s)` on cleaned text, as the engine uses it. -/
def parseFloat (l : List Char) : Option ℚ :=
  (parseMantissa l).map mantissaVal

/-- `_to_float` of src/app.py (lines 615-620): stringify, strip commas and
surrounding whitespace, parse, and default to `0.0` on empty or
unparseable input (a blank cell stringifies to empty text). -/
def to_float (c : Cell) : ℚ :=
  match c with
  | .num q => q
  | .blank => 0
  | .str s =>
    let t := cleanCell s
    if t.isEmpty then 0 else (parseFloat t).getD 0

/-- `OVT_MONTH_CAP` of src/app.py (line 83). -/
def OVT_MONTH_CAP : ℚ := 57

/-- `OVT_QTR_CAP` of src/app.py (line 84). -/
def OVT_QTR_CAP : ℚ := 90

/-- Month-2 cumulative-entry detection (`b_is_cum`, src/app.py line 624),
evaluated on the uncorrected normalized values. -/
def b_is_cum (a b c : ℚ) : Prop :=
  b ≥ a ∧ c = 0 ∧ b > OVT_MONTH_CAP * 1.2

/-- Month-3 cumulative-entry detection (`c_is_cum`, src/app.py line 625),
evaluated on the uncorrected normalized values. -/
def c_is_cum (a b c : ℚ) : Prop :=
  c > a + b ∧ c > OVT_MONTH_CAP * 1.5

instance (a b c : ℚ) : Decidable (b_is_cum a b c) := by
  unfold b_is_cum; infer_instance

instance (a b c : ℚ) : Decidable (c_is_cum a b c) := by
  unfold c_is_cum; infer_instance

/-- The correction step of `_normalize_month_inputs` (src/app.py lines
624-630): both detections are evaluated on the uncorrected values, then
month 2 is corrected, then month 3 is corrected using the
possibly-already-corrected month-2 value. -/
def correct_cumulative (a b c : ℚ) : ℚ × ℚ × ℚ :=
  let b2 := if b_is_cum a b c then max 0 (b - a) else b
  let c2 := if c_is_cum a b c then max 0 (c - (a + b2)) else c
  (a, b2, c2)

/-- `_normalize_month_inputs` of src/app.py (lines 622-630). -/
def normalize_month_inputs (x y z : Cell) : ℚ × ℚ × ℚ :=
  correct_cumulative (to_float x) (to_float y) (to_float z)

/-- Python `int()` on a float value: truncation toward zero. -/
def pyInt (q : ℚ) : Int := q.num / (q.den : Int)

/-- Decimal digit characters of `n`, most significant first. -/
def natDigits (n : Nat) : List Char := Nat.toDigits 10 n

/-- Whether `10 ^ g ≤ num / den`, for positive `num`, `den`. -/
def tenPowLe (g : Int) (num den : Nat) : Bool :=
  if 0 ≤ g then decide (10 ^ g.toNat * den ≤ num)
  else decide (den ≤ num * 10 ^ (-g).toNat)

/-- The decimal exponent `e` with `10 ^ e ≤ num / den < 10 ^ (e + 1)`
(for positive `num`, `den`). -/
def decExp (num den : Nat) : Int :=
  let g : Int := (natDigits num).length - (natDigits den).length
  if tenPowLe g num den then g else g - 1

/-- Round `num / den` (positive) to six significant digits, half to even,
returning the six-digit decimal mantissa and the decimal exponent. -/
def round6 (num den : Nat) : Nat × Int :=
  let e := decExp num den
  let s : Int := 5 - e
  let p := if 0 ≤ s then num * 10 ^ s.toNat else num
  let q := if 0 ≤ s then den else den * 10 ^ (-s).toNat
  let m0 := p / q
  let r := p % q
  let m :=
    if 2 * r < q then m0
    else if q < 2 * r then m0 + 1
    else if m0 % 2 = 0 then m0 else m0 + 1
  if m = 10 ^ 6 then (10 ^ 5, e + 1) else (m, e)

/-- Strip trailing zero digits. -/
def stripTrailingZeros (ds : List Char) : List Char :=
  (ds.reverse.dropWhile (fun c => c == '0')).reverse

/-- Fixed-point rendering of a stripped mantissa at exponent `e`
(`-4 ≤ e < 6`). -/
def fixedDigits (sig : List Char) (e : Int) : List Char :=
  if 0 ≤ e then
    let k := e.toNat + 1
    let ipart := (sig ++ List.replicate 6 '0').take k
    let fpart := sig.drop k
    ipart ++ (if fpart.isEmpty then [] else '.' :: fpart)
  else
    '0' :: '.' :: (List.replicate ((-e).toNat - 1) '0' ++ sig)

/-- Pad an exponent's digits to at least two characters. -/
def pad2 (ds : List Char) : List Char :=
  if ds.length < 2 then '0' :: ds else ds

/-- Scientific rendering `d.ddddde±XX` of a stripped mantissa. -/
def sciDigits (sig : List Char) (e : Int) : List Char :=
  sig.take 1
    ++ (if (sig.drop 1).isEmpty then [] else '.' :: sig.drop 1)
    ++ 'e' :: (if 0 ≤ e then '+' else '-') :: pad2 (natDigits e.natAbs)

/-- `%g` (default precision 6) on the fraction `n / d`, `d` positive. -/
def fmtParts (n : Int) (d : Nat) : String :=
  if n = 0 then "0"
  else
    let p := round6 n.natAbs d
    let sig := stripTrailingZeros (natDigits p.1)
    let body := if -4 ≤ p.2 ∧ p.2 < 6 then fixedDigits sig p.2 else sciDigits sig p.2
    ((if n < 0 then ['-'] else []) ++ body).asString

/-- `_fmt_g` of src/app.py (lines 632-633): `f"{x:g}"`. -/
def fmt_g (q : ℚ) : String := fmtParts q.num q.den

/-- The month-cap remark clause (src/app.py lines 686-691). -/
def monthCapMsg (v : ℚ) : String :=
  "월 57시간 초과로 시간 조정함(조정 전 : " ++ fmt_g v ++ " 시간)"

/-- The quarter-cap remark clause (src/app.py lines 692-695). -/
def qtrCapMsg (p : ℚ) : String :=
  "분기 합 90시간 초과로 시간 조정함(조정 전 : " ++ fmt_g p ++ " 시간)"

/-- Per-employee output of the engine (the per-row fields computed in
`build_ovt_quarter_df`, src/app.py lines 663-698). -/
structure AllocationResult where
  a1 : ℚ
  a2 : ℚ
  a3 : ℚ
  cume1 : ℚ
  cume2 : ℚ
  cume3 : ℚ
  remain : ℚ
  adj1_m57 : Prop
  adj2_m57 : Prop
  adj3_m57 : Prop
  adj2_q90 : Prop
  adj3_q90 : Prop
  note : String

/-- The capped allocation and remark synthesis of `build_ovt_quarter_df`
(src/app.py lines 663-698) on the corrected, normalized monthly hours. -/
def allocate (v1 v2 v3 : ℚ) : AllocationResult :=
  let a1_pre := min v1 OVT_MONTH_CAP
  let a2_pre := min v2 OVT_MONTH_CAP
  let a3_pre := min v3 OVT_MONTH_CAP
  let a1 := a1_pre
  let allow2 := max 0 (OVT_QTR_CAP - a1)
  let a2 := min a2_pre allow2
  let allow3 := max 0 (OVT_QTR_CAP - (a1 + a2))
  let a3 := min a3_pre allow3
  let cume1 := a1
  let cume2 := a1 + a2
  let cume3 := a1 + a2 + a3
  let remain := max 0 (OVT_QTR_CAP - cume3)
  let msgs : List String :=
    (if a1_pre < v1 then [monthCapMsg v1] else [])
    ++ (if a2_pre < v2 then [monthCapMsg v2] else [])
    ++ (if a3_pre < v3 then [monthCapMsg v3] else [])
    ++ (if a2 < a2_pre then [qtrCapMsg a2_pre] else [])
    ++ (if a3 < a3_pre then [qtrCapMsg a3_pre] else [])
  let note :=
    "잔여 가능 " ++ toString (pyInt remain) ++ "h"
      ++ (if msgs.isEmpty then "" else " / " ++ String.intercalate "; " msgs)
  { a1 := a1, a2 := a2, a3 := a3,
    cume1 := cume1, cume2 := cume2, cume3 := cume3, remain := remain,
    adj1_m57 := a1_pre < v1, adj2_m57 := a2_pre < v2, adj3_m57 := a3_pre < v3,
    adj2_q90 := a2 < a2_pre, adj3_q90 := a3 < a3_pre,
    note := note }

/-- The loop body of `build_ovt_quarter_df` applied to one row's three
month cells (src/app.py lines 657-698). -/
def processCells (x y z : Cell) : AllocationResult :=
  match normalize_month_inputs x y z with
  | (v1, v2, v3) => allocate v1 v2 v3

/-- Round half to even, Python `round()` to zero decimal places. -/
def roundHalfEven (q : ℚ) : Int :=
  let f := ⌊q⌋
  let r := q - f
  if r < 1 / 2 then f
  else if 1 / 2 < r then f + 1
  else if f % 2 = 0 then f else f + 1

/-- Python `round(x, 2)`. -/
def pyRound2 (q : ℚ) : ℚ := (roundHalfEven (q * 100) : ℚ) / 100

/-- One input row as the loop of `build_ovt_quarter_df` sees it:
identity fields plus the three month cells. -/
structure InRow where
  serial : String
  rank : String
  name : String
  m1 : Cell
  m2 : Cell
  m3 : Cell

/-- One output record of `build_ovt_quarter_df` (the dict appended at
src/app.py lines 700-716). -/
structure OutRow where
  serial : String
  rank : String
  name : String
  a1 : ℚ
  cume1 : ℚ
  a2 : ℚ
  cume2 : ℚ
  a3 : ℚ
  cume3 : ℚ
  note : String
  adj1_m57 : Prop
  adj2_m57 : Prop
  adj3_m57 : Prop
  adj2_q90 : Prop
  adj3_q90 : Prop

/-- The record built for a row that survives the blank-name check. -/
def mkRecord (r : InRow) : OutRow :=
  let A := processCells r.m1 r.m2 r.m3
  { serial := r.serial, rank := r.rank,
    name := (pyStrip r.name.toList).asString,
    a1 := pyRound2 A.a1, cume1 := pyRound2 A.cume1,
    a2 := pyRound2 A.a2, cume2 := pyRound2 A.cume2,
    a3 := pyRound2 A.a3, cume3 := pyRound2 A.cume3,
    note := A.note,
    adj1_m57 := A.adj1_m57, adj2_m57 := A.adj2_m57, adj3_m57 := A.adj3_m57,
    adj2_q90 := A.adj2_q90, adj3_q90 := A.adj3_q90 }

/-- The blank-name skip of the loop (src/app.py lines 651-653): a row
whose stripped name is empty produces no record. -/
def processRow (r : InRow) : Option OutRow :=
  if (pyStrip r.name.toList).isEmpty then none else some (mkRecord r)

/-- The row loop of `build_ovt_quarter_df` (src/app.py lines 650-716). -/
def build_ovt_quarter_df (rows : List InRow) : List OutRow :=
  rows.filterMap processRow

/-! ## Helper lemmas -/

theorem mk_rat_eq (n : ℤ) (d : ℕ) (h1 : d ≠ 0) (h2 : n.natAbs.Coprime d) :
    ((⟨n, d, h1, h2⟩ : ℚ)) = (n : ℚ) / (d : ℚ) :=
  (Rat.num_div_den _).symm

theorem allocate_a1_eq (v1 v2 v3 : ℚ) : (allocate v1 v2 v3).a1 = min v1 57 := by
  simp [allocate, OVT_MONTH_CAP]

theorem allocate_a2_eq (v1 v2 v3 : ℚ) :
    (allocate v1 v2 v3).a2 = min (min v2 57) (max 0 (90 - min v1 57)) := by
  simp [allocate, OVT_MONTH_CAP, OVT_QTR_CAP]

theorem allocate_a3_eq (v1 v2 v3 : ℚ) :
    (allocate v1 v2 v3).a3 =
      min (min v3 57)
        (max 0 (90 - (min v1 57 + min (min v2 57) (max 0 (90 - min v1 57))))) := by
  simp [allocate, OVT_MONTH_CAP, OVT_QTR_CAP]

theorem allocate_cume1_eq (v1 v2 v3 : ℚ) :
    (allocate v1 v2 v3).cume1 = (allocate v1 v2 v3).a1 := by
  simp [allocate]

theorem allocate_cume2_eq (v1 v2 v3 : ℚ) :
    (allocate v1 v2 v3).cume2 = (allocate v1 v2 v3).a1 + (allocate v1 v2 v3).a2 := by
  simp [allocate]

theorem allocate_cume3_eq (v1 v2 v3 : ℚ) :
    (allocate v1 v2 v3).cume3 =
      (allocate v1 v2 v3).a1 + (allocate v1 v2 v3).a2 + (allocate v1 v2 v3).a3 := by
  simp [allocate]

theorem allocate_remain_def (v1 v2 v3 : ℚ) :
    (allocate v1 v2 v3).remain = max 0 (90 - (allocate v1 v2 v3).cume3) := by
  simp [allocate, OVT_QTR_CAP]

theorem alloc_a1_le_cap (v1 v2 v3 : ℚ) : (allocate v1 v2 v3).a1 ≤ 57 := by
  rw [allocate_a1_eq]; exact min_le_right _ _

theorem alloc_a2_le_cap (v1 v2 v3 : ℚ) : (allocate v1 v2 v3).a2 ≤ 57 := by
  rw [allocate_a2_eq]; exact (min_le_left _ _).trans (min_le_right _ _)

theorem alloc_a3_le_cap (v1 v2 v3 : ℚ) : (allocate v1 v2 v3).a3 ≤ 57 := by
  rw [allocate_a3_eq]; exact (min_le_left _ _).trans (min_le_right _ _)

theorem alloc_cume2_le_cap (v1 v2 v3 : ℚ) : (allocate v1 v2 v3).cume2 ≤ 90 := by
  rw [allocate_cume2_eq, allocate_a1_eq, allocate_a2_eq]
  have hm1 : min v1 57 ≤ 57 := min_le_right _ _
  have h2 : min (min v2 57) (max 0 (90 - min v1 57)) ≤ max 0 (90 - min v1 57) :=
    min_le_right _ _
  have h3 : max 0 (90 - min v1 57) = 90 - min v1 57 := max_eq_right (by linarith)
  linarith

theorem alloc_cume3_le_cap (v1 v2 v3 : ℚ) : (allocate v1 v2 v3).cume3 ≤ 90 := by
  have hc2 := alloc_cume2_le_cap v1 v2 v3
  rw [allocate_cume2_eq] at hc2
  have ha3 : (allocate v1 v2 v3).a3 ≤
      max 0 (90 - ((allocate v1 v2 v3).a1 + (allocate v1 v2 v3).a2)) := by
    rw [allocate_a3_eq, allocate_a1_eq, allocate_a2_eq]
    exact min_le_right _ _
  have hmax : max 0 (90 - ((allocate v1 v2 v3).a1 + (allocate v1 v2 v3).a2)) =
      90 - ((allocate v1 v2 v3).a1 + (allocate v1 v2 v3).a2) :=
    max_eq_right (by linarith)
  rw [allocate_cume3_eq]
  linarith [hmax ▸ ha3]

theorem alloc_remain_eq (v1 v2 v3 : ℚ) :
    (allocate v1 v2 v3).remain = 90 - (allocate v1 v2 v3).cume3 := by
  have := alloc_cume3_le_cap v1 v2 v3
  rw [allocate_remain_def]
  exact max_eq_right (by linarith)

theorem alloc_a1_le_v (v1 v2 v3 : ℚ) : (allocate v1 v2 v3).a1 ≤ v1 := by
  rw [allocate_a1_eq]; exact min_le_left _ _

theorem alloc_a2_le_v (v1 v2 v3 : ℚ) : (allocate v1 v2 v3).a2 ≤ v2 := by
  rw [allocate_a2_eq]; exact (min_le_left _ _).trans (min_le_left _ _)

theorem alloc_a3_le_v (v1 v2 v3 : ℚ) : (allocate v1 v2 v3).a3 ≤ v3 := by
  rw [allocate_a3_eq]; exact (min_le_left _ _).trans (min_le_left _ _)

theorem alloc_a1_nonneg (v1 v2 v3 : ℚ) (h : 0 ≤ v1) : 0 ≤ (allocate v1 v2 v3).a1 := by
  rw [allocate_a1_eq]; exact le_min h (by norm_num)

theorem alloc_a2_nonneg (v1 v2 v3 : ℚ) (h : 0 ≤ v2) : 0 ≤ (allocate v1 v2 v3).a2 := by
  rw [allocate_a2_eq]; exact le_min (le_min h (by norm_num)) (le_max_left _ _)

theorem alloc_a3_nonneg (v1 v2 v3 : ℚ) (h : 0 ≤ v3) : 0 ≤ (allocate v1 v2 v3).a3 := by
  rw [allocate_a3_eq]; exact le_min (le_min h (by norm_num)) (le_max_left _ _)

theorem correct_fst (a b c : ℚ) : (correct_cumulative a b c).1 = a := by
  simp [correct_cumulative]

theorem correct_snd_nonneg (a b c : ℚ) (hb : 0 ≤ b) :
    0 ≤ (correct_cumulative a b c).2.1 := by
  unfold correct_cumulative
  dsimp only
  split_ifs with h
  · exact le_max_left 0 _
  · exact hb

theorem correct_trd_nonneg (a b c : ℚ) (hc : 0 ≤ c) :
    0 ≤ (correct_cumulative a b c).2.2 := by
  unfold correct_cumulative
  dsimp only
  split_ifs
  all_goals first
  | exact le_max_left 0 _
  | exact hc

theorem processCells_eq (x y z : Cell) :
    processCells x y z =
      allocate (normalize_month_inputs x y z).1 (normalize_month_inputs x y z).2.1
        (normalize_month_inputs x y z).2.2 := by
  unfold processCells
  rcases h : normalize_month_inputs x y z with ⟨v1, v2, v3⟩
  rfl

theorem normalize_fst (x y z : Cell) :
    (normalize_month_inputs x y z).1 = to_float x := by
  simp [normalize_month_inputs, correct_fst]

/-! ## Claim theorems -/

/-- C2: for every corrected triple, the allocator computes exactly
`a1 = min v1 57`, `a2 = min (min v2 57) (max 0 (90 - a1))`,
`a3 = min (min v3 57) (max 0 (90 - (a1 + a2)))`, and the five flags are
`adj1_m57 = (v1 > min v1 57)`, `adj2_m57 = (v2 > min v2 57)`,
`adj3_m57 = (v3 > min v3 57)`, `adj2_q90 = (a2 < min v2 57)`,
`adj3_q90 = (a3 < min v3 57)`. -/
theorem c2_allocator_formula (v1 v2 v3 : ℚ) :
    (allocate v1 v2 v3).a1 = min v1 57 ∧
    (allocate v1 v2 v3).a2 = min (min v2 57) (max 0 (90 - (allocate v1 v2 v3).a1)) ∧
    (allocate v1 v2 v3).a3 =
      min (min v3 57)
        (max 0 (90 - ((allocate v1 v2 v3).a1 + (allocate v1 v2 v3).a2))) ∧
    ((allocate v1 v2 v3).adj1_m57 ↔ min v1 57 < v1) ∧
    ((allocate v1 v2 v3).adj2_m57 ↔ min v2 57 < v2) ∧
    ((allocate v1 v2 v3).adj3_m57 ↔ min v3 57 < v3) ∧
    ((allocate v1 v2 v3).adj2_q90 ↔ (allocate v1 v2 v3).a2 < min v2 57) ∧
    ((allocate v1 v2 v3).adj3_q90 ↔ (allocate v1 v2 v3).a3 < min v3 57) := by
  simp [allocate, OVT_MONTH_CAP, OVT_QTR_CAP]

/-- C3: the anomaly corrector replaces `v2` by `max 0 (v2 - v1)` exactly
when the uncorrected values satisfy `v2 ≥ v1 ∧ v3 = 0 ∧ v2 > 57 * 1.2`,
and replaces `v3` by `max 0 (v3 - (v1 + v2'))` (with `v2'` the
possibly-already-corrected month-2 value) exactly when the uncorrected
values satisfy `v3 > v1 + v2 ∧ v3 > 57 * 1.5`; otherwise each component
is returned unchanged. -/
theorem c3_corrector_formula (v1 v2 v3 : ℚ) :
    correct_cumulative v1 v2 v3 =
      (v1,
       if v1 ≤ v2 ∧ v3 = 0 ∧ 57 * 1.2 < v2 then max 0 (v2 - v1) else v2,
       if v1 + v2 < v3 ∧ 57 * 1.5 < v3 then
         max 0 (v3 - (v1 + (if v1 ≤ v2 ∧ v3 = 0 ∧ 57 * 1.2 < v2 then
           max 0 (v2 - v1) else v2)))
       else v3) := by
  simp only [correct_cumulative, b_is_cum, c_is_cum, ge_iff_le, gt_iff_lt, OVT_MONTH_CAP]

/-- C9: the upper-bound halves of the cap invariants hold for every input
record, with no non-negativity precondition: `a1, a2, a3 ≤ 57`,
`cume2 ≤ 90` and `cume3 ≤ 90`, even when parsed values are negative. -/
theorem c9_upper_bounds_unconditional (x y z : Cell) :
    (processCells x y z).a1 ≤ 57 ∧ (processCells x y z).a2 ≤ 57 ∧
    (processCells x y z).a3 ≤ 57 ∧ (processCells x y z).cume2 ≤ 90 ∧
    (processCells x y z).cume3 ≤ 90 := by
  rw [processCells_eq]
  exact ⟨alloc_a1_le_cap _ _ _, alloc_a2_le_cap _ _ _, alloc_a3_le_cap _ _ _,
    alloc_cume2_le_cap _ _ _, alloc_cume3_le_cap _ _ _⟩

/-- C1 (counterexample): a parseable negative raw value is not neutralized
by the allocator: a raw month-1 value of `-5` yields the allocation
`a1 = -5 < 0`, refuting `0 ≤ a1` for parseable records. -/
theorem c1_negative_alloc_counterexample :
    (processCells (Cell.num (-5)) Cell.blank Cell.blank).a1 = -5 ∧
    ¬ (0 ≤ (processCells (Cell.num (-5)) Cell.blank Cell.blank).a1) := by
  norm_num [processCells, normalize_month_inputs, correct_cumulative, allocate,
    to_float, b_is_cum, c_is_cum, OVT_MONTH_CAP, OVT_QTR_CAP, min_def, max_def]

/-- C1 (amended): for every record whose three parsed cell values are
non-negative, the allocations satisfy `0 ≤ a_i`, `a_i ≤ 57` and
`a_i ≤ v_i` (the corrected normalized value); negative parsed inputs are
not neutralized (see the counterexample), so the lower bound needs the
non-negativity hypothesis while the two upper bounds hold there too. -/
theorem c1_month_bounds_amended (x y z : Cell)
    (h1 : 0 ≤ to_float x) (h2 : 0 ≤ to_float y) (h3 : 0 ≤ to_float z) :
    (0 ≤ (processCells x y z).a1 ∧ (processCells x y z).a1 ≤ 57 ∧
      (processCells x y z).a1 ≤ (normalize_month_inputs x y z).1) ∧
    (0 ≤ (processCells x y z).a2 ∧ (processCells x y z).a2 ≤ 57 ∧
      (processCells x y z).a2 ≤ (normalize_month_inputs x y z).2.1) ∧
    (0 ≤ (processCells x y z).a3 ∧ (processCells x y z).a3 ≤ 57 ∧
      (processCells x y z).a3 ≤ (normalize_month_inputs x y z).2.2) := by
  rw [processCells_eq]
  have hn : normalize_month_inputs x y z =
      correct_cumulative (to_float x) (to_float y) (to_float z) := rfl
  rw [hn]
  have hv1 : 0 ≤ (correct_cumulative (to_float x) (to_float y) (to_float z)).1 := by
    rw [correct_fst]; exact h1
  have hv2 := correct_snd_nonneg (to_float x) (to_float y) (to_float z) h2
  have hv3 := correct_trd_nonneg (to_float x) (to_float y) (to_float z) h3
  exact ⟨⟨alloc_a1_nonneg _ _ _ hv1, alloc_a1_le_cap _ _ _, alloc_a1_le_v _ _ _⟩,
    ⟨alloc_a2_nonneg _ _ _ hv2, alloc_a2_le_cap _ _ _, alloc_a2_le_v _ _ _⟩,
    ⟨alloc_a3_nonneg _ _ _ hv3, alloc_a3_le_cap _ _ _, alloc_a3_le_v _ _ _⟩⟩

/-- C1 witness: the amended bounds instantiated at the record
`(40, 30, 20)`. -/
theorem c1_month_bounds_witness :
    0 ≤ (processCells (Cell.num 40) (Cell.num 30) (Cell.num 20)).a1 ∧
    (processCells (Cell.num 40) (Cell.num 30) (Cell.num 20)).a2 ≤ 57 ∧
    (processCells (Cell.num 40) (Cell.num 30) (Cell.num 20)).a3 ≤
      (normalize_month_inputs (Cell.num 40) (Cell.num 30) (Cell.num 20)).2.2 :=
  ⟨(c1_month_bounds_amended _ _ _ (by norm_num [to_float]) (by norm_num [to_float])
      (by norm_num [to_float])).1.1,
   (c1_month_bounds_amended _ _ _ (by norm_num [to_float]) (by norm_num [to_float])
      (by norm_num [to_float])).2.1.2.1,
   (c1_month_bounds_amended _ _ _ (by norm_num [to_float]) (by norm_num [to_float])
      (by norm_num [to_float])).2.2.2.2⟩

/-- C4 (counterexample): a parseable negative month-2 value breaks the
cumulative ladder: raw values `(0, -5, 0)` give `cume1 = 0` but
`cume2 = -5`, refuting `cume1 ≤ cume2` for parseable records. -/
theorem c4_negative_cume_counterexample :
    (processCells (Cell.num 0) (Cell.num (-5)) (Cell.num 0)).cume1 = 0 ∧
    (processCells (Cell.num 0) (Cell.num (-5)) (Cell.num 0)).cume2 = -5 ∧
    ¬ ((processCells (Cell.num 0) (Cell.num (-5)) (Cell.num 0)).cume1 ≤
        (processCells (Cell.num 0) (Cell.num (-5)) (Cell.num 0)).cume2) := by
  norm_num [processCells, normalize_month_inputs, correct_cumulative, allocate,
    to_float, b_is_cum, c_is_cum, OVT_MONTH_CAP, OVT_QTR_CAP, min_def, max_def]

/-- C4 (amended): for every record whose three parsed cell values are
non-negative, `cume1 ≤ cume2 ≤ cume3 ≤ 90`; the identities
`cumeK = a1 + ... + aK` and `remainder = 90 - cume3 ≥ 0` hold for every
record, but the ladder's monotonicity needs the non-negativity
hypothesis (see the counterexample). -/
theorem c4_cumulative_ladder_amended (x y z : Cell)
    (h1 : 0 ≤ to_float x) (h2 : 0 ≤ to_float y) (h3 : 0 ≤ to_float z) :
    (processCells x y z).cume1 ≤ (processCells x y z).cume2 ∧
    (processCells x y z).cume2 ≤ (processCells x y z).cume3 ∧
    (processCells x y z).cume3 ≤ 90 ∧
    (processCells x y z).cume1 = (processCells x y z).a1 ∧
    (processCells x y z).cume2 = (processCells x y z).a1 + (processCells x y z).a2 ∧
    (processCells x y z).cume3 =
      (processCells x y z).a1 + (processCells x y z).a2 + (processCells x y z).a3 ∧
    (processCells x y z).remain = 90 - (processCells x y z).cume3 ∧
    0 ≤ (processCells x y z).remain := by
  rw [processCells_eq]
  have hn : normalize_month_inputs x y z =
      correct_cumulative (to_float x) (to_float y) (to_float z) := rfl
  rw [hn]
  set w1 := (correct_cumulative (to_float x) (to_float y) (to_float z)).1 with hw1
  set w2 := (correct_cumulative (to_float x) (to_float y) (to_float z)).2.1 with hw2
  set w3 := (correct_cumulative (to_float x) (to_float y) (to_float z)).2.2 with hw3
  have hv2 : 0 ≤ w2 := correct_snd_nonneg (to_float x) (to_float y) (to_float z) h2
  have hv3 : 0 ≤ w3 := correct_trd_nonneg (to_float x) (to_float y) (to_float z) h3
  refine ⟨?_, ?_, alloc_cume3_le_cap _ _ _, allocate_cume1_eq _ _ _,
    allocate_cume2_eq _ _ _, allocate_cume3_eq _ _ _, alloc_remain_eq _ _ _, ?_⟩
  · rw [allocate_cume1_eq, allocate_cume2_eq]
    have := alloc_a2_nonneg w1 w2 w3 hv2
    linarith
  · rw [allocate_cume2_eq, allocate_cume3_eq]
    have := alloc_a3_nonneg w1 w2 w3 hv3
    linarith
  · rw [alloc_remain_eq]
    have := alloc_cume3_le_cap w1 w2 w3
    linarith

/-- C4 witness: the amended ladder instantiated at the record
`(40, 30, 20)`. -/
theorem c4_cumulative_ladder_witness :
    (processCells (Cell.num 40) (Cell.num 30) (Cell.num 20)).cume1 ≤
      (processCells (Cell.num 40) (Cell.num 30) (Cell.num 20)).cume2 ∧
    (processCells (Cell.num 40) (Cell.num 30) (Cell.num 20)).cume3 ≤ 90 ∧
    0 ≤ (processCells (Cell.num 40) (Cell.num 30) (Cell.num 20)).remain :=
  ⟨(c4_cumulative_ladder_amended _ _ _ (by norm_num [to_float])
      (by norm_num [to_float]) (by norm_num [to_float])).1,
   (c4_cumulative_ladder_amended _ _ _ (by norm_num [to_float])
      (by norm_num [to_float]) (by norm_num [to_float])).2.2.1,
   (c4_cumulative_ladder_amended _ _ _ (by norm_num [to_float])
      (by norm_num [to_float]) (by norm_num [to_float])).2.2.2.2.2.2.2⟩

/-- C7: on the triple `(20, 75, 0)` the month-2 cumulative-entry anomaly
is detected (`75 ≥ 20`, `0 = 0`, `75 > 68.4`), `v2` is corrected to `55`,
and the allocation is `a1 = 20`, `a2 = 55`, `a3 = 0` with `cume2 = 75`
and `remainder = 15`. -/
theorem c7_cumulative_scenario :
    b_is_cum 20 75 0 ∧ ¬ c_is_cum 20 75 0 ∧
    normalize_month_inputs (Cell.num 20) (Cell.num 75) (Cell.num 0) = (20, 55, 0) ∧
    (processCells (Cell.num 20) (Cell.num 75) (Cell.num 0)).a1 = 20 ∧
    (processCells (Cell.num 20) (Cell.num 75) (Cell.num 0)).a2 = 55 ∧
    (processCells (Cell.num 20) (Cell.num 75) (Cell.num 0)).a3 = 0 ∧
    (processCells (Cell.num 20) (Cell.num 75) (Cell.num 0)).cume2 = 75 ∧
    (processCells (Cell.num 20) (Cell.num 75) (Cell.num 0)).remain = 15 := by
  norm_num [b_is_cum, c_is_cum, processCells, normalize_month_inputs,
    correct_cumulative, to_float, allocate, OVT_MONTH_CAP, OVT_QTR_CAP,
    min_def, max_def, Prod.ext_iff]

/-- C8: the month-2 and month-3 cumulative-entry detections are mutually
exclusive (month 2 requires `v3 = 0`, month 3 requires `v3 > 85.5`), so
at most one correction fires, and whenever the month-3 correction fires
its subtraction sees the unchanged month-2 value. -/
theorem c8_detections_exclusive :
    (∀ a b c : ℚ, ¬ (b_is_cum a b c ∧ c_is_cum a b c)) ∧
    (∀ a b c : ℚ, c_is_cum a b c →
      correct_cumulative a b c = (a, b, max 0 (c - (a + b)))) := by
  constructor
  · rintro a b c ⟨hb, hc⟩
    have h0 : c = 0 := hb.2.1
    have h1 := hc.2
    rw [h0] at h1
    norm_num [OVT_MONTH_CAP] at h1
  · intro a b c hc
    have hnb : ¬ b_is_cum a b c := by
      rintro ⟨_, h0, _⟩
      have h1 := hc.2
      rw [h0] at h1
      norm_num [OVT_MONTH_CAP] at h1
    simp only [correct_cumulative]
    rw [if_neg hnb, if_pos hc]

/-- C8 witness: the month-3 correction on `(0, 0, 100)` subtracts the
uncorrected month-2 value. -/
theorem c8_detections_witness :
    correct_cumulative 0 0 100 = (0, 0, max 0 (100 - (0 + 0))) :=
  c8_detections_exclusive.2 0 0 100 (by norm_num [c_is_cum, OVT_MONTH_CAP])

/-- C5: the Value Normalizer strips commas and surrounding whitespace,
returns the parsed number when the remaining text parses (a negative
parse result is returned as-is), and returns `0` on empty or unparseable
input; it is a total function, so no input can raise. -/
theorem c5_to_float_spec :
    (∀ q : ℚ, to_float (Cell.num q) = q) ∧
    to_float Cell.blank = 0 ∧
    (∀ s : String, ∀ m e : Int, parseMantissa (cleanCell s) = some (m, e) →
      to_float (Cell.str s) = (m : ℚ) * (10 : ℚ) ^ e) ∧
    (∀ s : String, parseMantissa (cleanCell s) = none → to_float (Cell.str s) = 0) := by
  refine ⟨fun q => rfl, rfl, ?_, ?_⟩
  · intro s m e h
    simp only [to_float]
    by_cases he : (cleanCell s).isEmpty
    · exfalso
      have h0 : cleanCell s = [] := by simpa [List.isEmpty_iff] using he
      have h1 : parseMantissa ([] : List Char) = none := rfl
      rw [h0, h1] at h
      exact Option.noConfusion h
    · rw [if_neg he]
      simp only [parseFloat, h, Option.map_some]
      rfl
  · intro s h
    simp only [to_float]
    by_cases he : (cleanCell s).isEmpty
    · rw [if_pos he]
    · rw [if_neg he]
      simp only [parseFloat, h, Option.map_none]
      rfl

/-- C5 witness: `" 1,234.5 "` parses to `1234.5`, `"-5"` parses to `-5`
as-is, and `"abc"` falls back to `0`. -/
theorem c5_to_float_witness :
    parseMantissa (cleanCell " 1,234.5 ") = some (12345, -1) ∧
    to_float (Cell.str " 1,234.5 ") = ((12345 : ℤ) : ℚ) * (10 : ℚ) ^ (-1 : ℤ) ∧
    parseMantissa (cleanCell "-5") = some (-5, 0) ∧
    to_float (Cell.str "-5") = ((-5 : ℤ) : ℚ) * (10 : ℚ) ^ (0 : ℤ) ∧
    parseMantissa (cleanCell "abc") = none ∧
    to_float (Cell.str "abc") = 0 :=
  ⟨by decide, c5_to_float_spec.2.2.1 _ _ _ (by decide), by decide,
   c5_to_float_spec.2.2.1 _ _ _ (by decide), by decide,
   c5_to_float_spec.2.2.2 _ (by decide)⟩

/-- Modelled from the spec (§4.4 Remark Synthesizer): the remark with the
remainder rendered by `_fmt_g`, i.e. without unnecessary trailing zeros;
the clause list is the same fixed-order list the code builds, citing the
corrected pre-cap values for month-cap clauses and the month-cap-only
values for quarter-cap clauses. -/
def spec_note (v1 v2 v3 remain : ℚ) : String :=
  let a1_pre := min v1 OVT_MONTH_CAP
  let a2_pre := min v2 OVT_MONTH_CAP
  let a3_pre := min v3 OVT_MONTH_CAP
  let a1 := a1_pre
  let allow2 := max 0 (OVT_QTR_CAP - a1)
  let a2 := min a2_pre allow2
  let allow3 := max 0 (OVT_QTR_CAP - (a1 + a2))
  let a3 := min a3_pre allow3
  let msgs : List String :=
    (if a1_pre < v1 then [monthCapMsg v1] else [])
    ++ (if a2_pre < v2 then [monthCapMsg v2] else [])
    ++ (if a3_pre < v3 then [monthCapMsg v3] else [])
    ++ (if a2 < a2_pre then [qtrCapMsg a2_pre] else [])
    ++ (if a3 < a3_pre then [qtrCapMsg a3_pre] else [])
  "잔여 가능 " ++ fmt_g remain ++ "h"
    ++ (if msgs.isEmpty then "" else " / " ++ String.intercalate "; " msgs)

/-- C6 (counterexample): the remark renders the remainder through `int()`
truncation, not without-trailing-zeros formatting: with a corrected
month-1 value of `10.5` the remainder is `79.5`, but the remark reads
`"... 79h"` where the spec's format produces `"... 79.5h"`. -/
theorem c6_remark_counterexample :
    (processCells (Cell.num 10.5) Cell.blank Cell.blank).remain = 159 / 2 ∧
    (processCells (Cell.num 10.5) Cell.blank Cell.blank).note = "잔여 가능 79h" ∧
    spec_note 10.5 0 0 (159 / 2) = "잔여 가능 79.5h" ∧
    (processCells (Cell.num 10.5) Cell.blank Cell.blank).note ≠
      spec_note 10.5 0 0 (159 / 2) := by
  have h159 : (159 / 2 : ℚ) = (⟨159, 2, by norm_num, by norm_num⟩ : ℚ) := by
    rw [mk_rat_eq]; norm_num
  have hr : (processCells (Cell.num 10.5) Cell.blank Cell.blank).remain = 159 / 2 := by
    norm_num [processCells, normalize_month_inputs, correct_cumulative, allocate,
      to_float, b_is_cum, c_is_cum, OVT_MONTH_CAP, OVT_QTR_CAP, min_def, max_def]
  have hnote : (processCells (Cell.num 10.5) Cell.blank Cell.blank).note =
      "잔여 가능 79h" := by
    norm_num [processCells, normalize_month_inputs, correct_cumulative, allocate,
      to_float, b_is_cum, c_is_cum, OVT_MONTH_CAP, OVT_QTR_CAP, min_def, max_def]
    rw [h159]
    decide
  have hspec : spec_note 10.5 0 0 (159 / 2) = "잔여 가능 79.5h" := by
    norm_num [spec_note, OVT_MONTH_CAP, OVT_QTR_CAP, min_def, max_def]
    rw [h159]
    decide
  exact ⟨hr, hnote, hspec, by rw [hnote, hspec]; decide⟩

/-- C6 (amended): the remark always begins with the remaining-allowance
clause with the remainder rendered as a truncated whole number
(`int(remain)`), followed after `" / "` — one clause per true flag,
joined with `"; "` — in the fixed order month-1 cap, month-2 cap,
month-3 cap, month-2 quarter-cap, month-3 quarter-cap, month-cap clauses
citing the corrected value `v_i` and quarter-cap clauses citing the
month-cap-only value `min v_i 57`; with no flags set the remark is just
the remaining-allowance clause. -/
theorem c6_remark_amended (x y z : Cell) :
    ((processCells x y z).note =
      "잔여 가능 " ++ toString (pyInt (processCells x y z).remain) ++ "h"
        ++ (if ((if min (normalize_month_inputs x y z).1 57 <
                  (normalize_month_inputs x y z).1 then
                [monthCapMsg (normalize_month_inputs x y z).1] else [])
            ++ (if min (normalize_month_inputs x y z).2.1 57 <
                  (normalize_month_inputs x y z).2.1 then
                [monthCapMsg (normalize_month_inputs x y z).2.1] else [])
            ++ (if min (normalize_month_inputs x y z).2.2 57 <
                  (normalize_month_inputs x y z).2.2 then
                [monthCapMsg (normalize_month_inputs x y z).2.2] else [])
            ++ (if (processCells x y z).a2 <
                  min (normalize_month_inputs x y z).2.1 57 then
                [qtrCapMsg (min (normalize_month_inputs x y z).2.1 57)] else [])
            ++ (if (processCells x y z).a3 <
                  min (normalize_month_inputs x y z).2.2 57 then
                [qtrCapMsg (min (normalize_month_inputs x y z).2.2 57)] else [])).isEmpty
          then ""
          else " / " ++ String.intercalate "; "
            ((if min (normalize_month_inputs x y z).1 57 <
                  (normalize_month_inputs x y z).1 then
                [monthCapMsg (normalize_month_inputs x y z).1] else [])
            ++ (if min (normalize_month_inputs x y z).2.1 57 <
                  (normalize_month_inputs x y z).2.1 then
                [monthCapMsg (normalize_month_inputs x y z).2.1] else [])
            ++ (if min (normalize_month_inputs x y z).2.2 57 <
                  (normalize_month_inputs x y z).2.2 then
                [monthCapMsg (normalize_month_inputs x y z).2.2] else [])
            ++ (if (processCells x y z).a2 <
                  min (normalize_month_inputs x y z).2.1 57 then
                [qtrCapMsg (min (normalize_month_inputs x y z).2.1 57)] else [])
            ++ (if (processCells x y z).a3 <
                  min (normalize_month_inputs x y z).2.2 57 then
                [qtrCapMsg (min (normalize_month_inputs x y z).2.2 57)] else [])))) ∧
    ((¬ (processCells x y z).adj1_m57 ∧ ¬ (processCells x y z).adj2_m57 ∧
      ¬ (processCells x y z).adj3_m57 ∧ ¬ (processCells x y z).adj2_q90 ∧
      ¬ (processCells x y z).adj3_q90) →
      (processCells x y z).note =
        "잔여 가능 " ++ toString (pyInt (processCells x y z).remain) ++ "h") := by
  rcases hn : normalize_month_inputs x y z with ⟨v1, v2, v3⟩
  have hp : processCells x y z = allocate v1 v2 v3 := by
    unfold processCells
    rw [hn]
  rw [hp]
  constructor
  · simp [allocate, OVT_MONTH_CAP, OVT_QTR_CAP]
  · rintro ⟨f1, f2, f3, f4, f5⟩
    simp only [allocate, OVT_MONTH_CAP, OVT_QTR_CAP] at f1 f2 f3 f4 f5 ⊢
    rw [if_neg f1, if_neg f2, if_neg f3, if_neg f4, if_neg f5]
    simp [String.append_assoc]

/-- C6 witness: for the unflagged record `(40, 30, 20)` the remark is
exactly the remaining-allowance clause. -/
theorem c6_remark_witness :
    (processCells (Cell.num 40) (Cell.num 30) (Cell.num 20)).note =
      "잔여 가능 " ++
        toString (pyInt (processCells (Cell.num 40) (Cell.num 30) (Cell.num 20)).remain)
        ++ "h" :=
  (c6_remark_amended (Cell.num 40) (Cell.num 30) (Cell.num 20)).2
    (by norm_num [processCells, normalize_month_inputs, correct_cumulative, allocate,
      to_float, b_is_cum, c_is_cum, OVT_MONTH_CAP, OVT_QTR_CAP, min_def, max_def])

/-- C10: the quarterly engine itself skips every row whose name strips to
the empty string — such a row yields no record — and each row with a
non-empty stripped name yields exactly one record. -/
theorem c10_blank_name_skip :
    (∀ rows : List InRow, build_ovt_quarter_df rows =
      (rows.filter (fun r => !(pyStrip r.name.toList).isEmpty)).map mkRecord) ∧
    (∀ r : InRow, processRow r = none ↔ (pyStrip r.name.toList).isEmpty = true) := by
  constructor
  · intro rows
    induction rows with
    | nil => rfl
    | cons r t ih =>
      by_cases h : pyStrip r.name.data = []
      · simp [build_ovt_quarter_df, List.filterMap_cons, processRow, h,
          List.filter_cons, List.isEmpty_iff] at ih ⊢
        exact ih
      · simp [build_ovt_quarter_df, List.filterMap_cons, processRow, h,
          List.filter_cons, List.isEmpty_iff] at ih ⊢
        exact ih
  · intro r
    unfold processRow
    by_cases h : (pyStrip r.name.toList).isEmpty
    · simp [h]
    · simp [h]
